import Mathlib

/-!
Verification of the authorization and identity-resolution logic of the
burger-queen API (src/routes/users.js, src/routes/auth.js).

The `users` and `orders` Mongo collections are modelled as lists of documents;
each route handler becomes a pure function from the verified token claims, the
path parameter, the request body and the store to a result holding the
response outcome, the store after the operation, and the list of collection
operations the handler performed.  Opening/closing the Mongo client is I/O
glue and is not a collection access; only `findOne`, `insertOne`,
`findOneAndUpdate` and `findOneAndDelete` calls are recorded as store
accesses.
-/

/-- A document of the `users` collection: `_id`, `email`, `password`
(bcrypt hash) and `role`. -/
structure User where
  id : String
  email : String
  password : String
  role : String
deriving Repr, DecidableEq

/-- The `users` collection, in insertion order. -/
abbrev Store := List User

/-- Verified token claims: auth.js signs `jwt.sign({ userId: user._id,
rol: user.role, email: user.email }, secret)`. -/
structure AuthClaims where
  userId : String
  email : String
  role : String
deriving Repr, DecidableEq

/-- Modelled from the spec: the auth middleware (src/middleware/auth.js is not
among the sources; only its callers are) verifies the token and exposes the
claims on the request object as `req.isAdmin` (whether the role is `admin`)
referenced by every handler guard. -/
def reqIsAdmin (c : AuthClaims) : Bool := c.role == "admin"

/-- Modelled from the spec: the middleware sets `req.userId` to the claims
identifier. -/
def reqUserId (c : AuthClaims) : String := c.userId

/-- Modelled from the spec: the middleware sets the legacy `req.thisEmail`
claim to the claims email. -/
def reqThisEmail (c : AuthClaims) : String := c.email

/-- JS truthiness of an optional string body field: the key is present and its
value is a non-empty string. -/
def truthy : Option String → Bool
  | some s => s != ""
  | none => false

/-- JS `uid.includes('@')`: the string contains an at-sign. -/
def includesAt (s : String) : Bool := s.toList.contains '@'

/-- `new ObjectId(str)` succeeds exactly on 24-character hexadecimal strings;
on any other string the constructor throws a BSON error.  Mirrors the
validity regex `/^[0-9a-fA-F]{24}$/` used by the order and product routes. -/
def isHex24 (s : String) : Bool :=
  s.toList.length == 24 &&
    s.toList.all (fun c => c.isDigit || ("abcdefABCDEF".toList.contains c))

/-- Modelled from the spec: bcrypt is an external collaborator producing a
one-way salted hash; the policy never inspects hash values, so the hash is
modelled as an opaque string transformer. -/
def bcryptHash (password : String) : String := "$2b$10$" ++ password

/-- Modelled from the spec: `insertOne` lets the store generate a fresh `_id`
for the inserted document; its value never matters to the policy. -/
def freshObjectId (s : Store) : String := toString s.length

/-- A collection access performed by a handler. -/
inductive StoreOp where
  | findUserByEmail (email : String)
  | findUserById (id : String)
  | insertUser (u : User)
  | updateUserByEmail (email : String)
  | updateUserById (id : String)
  | deleteUserByEmail (email : String)
  | deleteUserById (id : String)
  | updateOrderById (id : String)
deriving Repr, DecidableEq

/-- `usersCollection.findOne({ email })`: first document whose email field
matches. -/
def findOneByEmail (s : Store) (email : String) : Option User :=
  s.find? (fun u => u.email == email)

/-- `usersCollection.findOne({ _id })`: first document whose id matches. -/
def findOneById (s : Store) (id : String) : Option User :=
  s.find? (fun u => u.id == id)

/-- Outcome of a user-route handler: one constructor per
`resp.status(...).json(...)` site of src/routes/users.js, plus `thrown` for an
exception escaping the handler. -/
inductive UOut where
  | ok (id email role : String)
  | notAuthorized
  | roleDenied
  | emptyValues
  | missingFields
  | userExists
  | notFound
  | thrown
deriving Repr, DecidableEq

/-- HTTP status code attached to each outcome by the source (`none` for an
escaped exception, which never reaches `resp.status`). -/
def UOut.status : UOut → Option Nat
  | .ok _ _ _ => some 200
  | .notAuthorized => some 403
  | .roleDenied => some 403
  | .emptyValues => some 400
  | .missingFields => some 400
  | .userExists => some 403
  | .notFound => some 404
  | .thrown => none

/-- Result of a user-route handler: response outcome, the `users` collection
after the request, and the collection accesses performed. -/
structure HResult where
  out : UOut
  store : Store
  ops : List StoreOp
deriving Repr, DecidableEq

/-- The JS comparison `uid === Number` in the GET /users/:uid handler
(src/routes/users.js line 139) compares the path string with the global
`Number` constructor function; a string is never strictly equal to a
function object, so the test is false for every `uid`. -/
def strictEqNumberCtor (_uid : String) : Bool := false

/-- GET /users/:uid handler (src/routes/users.js lines 114-157). -/
def getUser (c : AuthClaims) (uid : String) (s : Store) : HResult :=
  let isAdmin := reqIsAdmin c
  let isAuthorized := reqUserId c == uid || isAdmin || reqThisEmail c == uid
  if !isAuthorized then
    ⟨.notAuthorized, s, []⟩
  else if includesAt uid then
    match findOneByEmail s uid with
    | some u => ⟨.ok u.id u.email u.role, s, [.findUserByEmail uid]⟩
    | none => ⟨.notFound, s, [.findUserByEmail uid]⟩
  else if strictEqNumberCtor uid then
    match findOneById s uid with
    | some u => ⟨.ok u.id u.email u.role, s, [.findUserById uid]⟩
    | none => ⟨.notFound, s, [.findUserById uid]⟩
  else
    ⟨.notFound, s, []⟩

/-- The JSON body of a user POST/PATCH request.  The fields the handlers
destructure are optional strings (`none` when the key is absent, `some ""`
when it is present with an empty value); `others` lists the keys of any
further fields, needed for `Object.keys(req.body).length`. -/
structure Body where
  email : Option String := none
  password : Option String := none
  role : Option String := none
  others : List String := []
deriving Repr, DecidableEq

/-- `Object.keys(req.body).length === 0`. -/
def Body.isEmptyObj (b : Body) : Bool :=
  b.email == none && b.password == none && b.role == none && b.others == []

/-- The PATCH /users/:uid validation guard (src/routes/users.js line 261):
`email === '' || password === '' || Object.keys(req.body).length === 0`. -/
def emptyUpdate (b : Body) : Bool :=
  b.email == some "" || b.password == some "" || b.isEmptyObj

/-- `$set` of a user-PATCH body on a user document: fields present in the
body overwrite the document field, absent fields are kept.  Only the four
modelled document fields are tracked; keys in `others` would set fields
outside the document model and cannot affect them. -/
def applySet (b : Body) (u : User) : User :=
  { u with
    email := b.email.getD u.email
    password := b.password.getD u.password
    role := b.role.getD u.role }

/-- `findOneAndUpdate({ email }, { $set: body }, { returnOriginal: false })`:
updates the first document whose email matches and returns it (after the
update), together with the collection after the call. -/
def findOneAndUpdateByEmail (s : Store) (e : String) (b : Body) :
    Option User × Store :=
  match s with
  | [] => (none, [])
  | u :: rest =>
    if u.email == e then
      (some (applySet b u), applySet b u :: rest)
    else
      let r := findOneAndUpdateByEmail rest e b
      (r.1, u :: r.2)

/-- `findOneAndUpdate({ _id }, { $set: body }, { returnOriginal: false })`. -/
def findOneAndUpdateById (s : Store) (id : String) (b : Body) :
    Option User × Store :=
  match s with
  | [] => (none, [])
  | u :: rest =>
    if u.id == id then
      (some (applySet b u), applySet b u :: rest)
    else
      let r := findOneAndUpdateById rest id b
      (r.1, u :: r.2)

/-- `findOneAndDelete({ email })`: removes and returns the first document
whose email matches. -/
def findOneAndDeleteByEmail (s : Store) (e : String) : Option User × Store :=
  match s with
  | [] => (none, [])
  | u :: rest =>
    if u.email == e then
      (some u, rest)
    else
      let r := findOneAndDeleteByEmail rest e
      (r.1, u :: r.2)

/-- `findOneAndDelete({ _id })`. -/
def findOneAndDeleteById (s : Store) (id : String) : Option User × Store :=
  match s with
  | [] => (none, [])
  | u :: rest =>
    if u.id == id then
      (some u, rest)
    else
      let r := findOneAndDeleteById rest id
      (r.1, u :: r.2)

/-- POST /users handler (src/routes/users.js lines 178-227).  The
`requireAdmin` middleware runs first, but the handler re-checks
`req.isAdmin` itself and that internal check alone produces the 403, so the
handler is modelled on its own. -/
def createUser (c : AuthClaims) (b : Body) (s : Store) : HResult :=
  if !truthy b.email || !truthy b.password || !truthy b.role then
    ⟨.missingFields, s, []⟩
  else
    let isAdmin := reqIsAdmin c
    if !isAdmin then
      ⟨.notAuthorized, s, []⟩
    else
      let email := b.email.getD ""
      match findOneByEmail s email with
      | none =>
        let newUser : User :=
          { id := freshObjectId s, email := email,
            password := bcryptHash (b.password.getD ""), role := b.role.getD "" }
        ⟨.ok newUser.id newUser.email newUser.role, s ++ [newUser],
          [.findUserByEmail email, .insertUser newUser]⟩
      | some _ => ⟨.userExists, s, [.findUserByEmail email]⟩

/-- PATCH /users/:uid handler (src/routes/users.js lines 251-329).  The
`role && role !== req.isAdmin` guard: a present non-empty role string is
truthy and a string is never strictly equal to the boolean `req.isAdmin`,
so the strict inequality is always true and the guard reduces to the
truthiness of the body role.  `new ObjectId(uid)` on a target that is not a
24-hex string throws, which no surrounding code catches: outcome `thrown`. -/
def updateUser (c : AuthClaims) (uid : String) (b : Body) (s : Store) : HResult :=
  if emptyUpdate b then
    ⟨.emptyValues, s, []⟩
  else
    let isAdmin := reqIsAdmin c
    let isUser := reqUserId c == uid || reqThisEmail c == uid
    let isAuthorized := isUser || isAdmin
    if !isAuthorized then
      ⟨.notAuthorized, s, []⟩
    else if !isAdmin && truthy b.role then
      ⟨.roleDenied, s, []⟩
    else
      let body :=
        if truthy b.password then
          { b with password := some (bcryptHash (b.password.getD "")) }
        else b
      if includesAt uid then
        match findOneAndUpdateByEmail s uid body with
        | (some u, s2) => ⟨.ok u.id u.email u.role, s2, [.updateUserByEmail uid]⟩
        | (none, s2) => ⟨.notFound, s2, [.updateUserByEmail uid]⟩
      else if isHex24 uid then
        match findOneAndUpdateById s uid body with
        | (some u, s2) => ⟨.ok u.id u.email u.role, s2, [.updateUserById uid]⟩
        | (none, s2) => ⟨.notFound, s2, [.updateUserById uid]⟩
      else
        ⟨.thrown, s, []⟩

/-- DELETE /users/:uid handler (src/routes/users.js lines 347-388).  As in
the PATCH handler, `new ObjectId(uid)` throws on a non-24-hex target. -/
def deleteUser (c : AuthClaims) (uid : String) (s : Store) : HResult :=
  let isAdmin := reqIsAdmin c
  let isAuthorized := reqUserId c == uid || isAdmin || reqThisEmail c == uid
  if !isAuthorized then
    ⟨.notAuthorized, s, []⟩
  else if includesAt uid then
    match findOneAndDeleteByEmail s uid with
    | (some u, s2) => ⟨.ok u.id u.email u.role, s2, [.deleteUserByEmail uid]⟩
    | (none, s2) => ⟨.notFound, s2, [.deleteUserByEmail uid]⟩
  else if isHex24 uid then
    match findOneAndDeleteById s uid with
    | (some u, s2) => ⟨.ok u.id u.email u.role, s2, [.deleteUserById uid]⟩
    | (none, s2) => ⟨.notFound, s2, [.deleteUserById uid]⟩
  else
    ⟨.thrown, s, []⟩

/-- initAdminUser (src/routes/users.js lines 14-45): bootstrap admin
provisioning.  If an admin email and password are configured (JS truthiness:
non-empty strings), look the email up and insert the hashed admin user when
absent; otherwise leave the collection alone. -/
def initAdminUser (adminEmail adminPassword : String) (s : Store) : Store :=
  if adminEmail == "" || adminPassword == "" then s
  else
    match findOneByEmail s adminEmail with
    | some _ => s
    | none =>
      s ++ [{ id := freshObjectId s, email := adminEmail,
              password := bcryptHash adminPassword, role := "admin" }]

/-- Number of documents of the collection carrying a given email. -/
def countEmail (s : Store) (e : String) : Nat :=
  (s.filter (fun u => u.email == e)).length

/-- A document of the `orders` collection.  Of the order fields only `_id`
and `status` are tracked: they are the only fields the PATCH handler's
control flow reads. -/
structure Order where
  id : String
  status : String
deriving Repr, DecidableEq

/-- The `orders` collection. -/
abbrev OrderStore := List Order

/-- The JSON body of an order PATCH request: the six fields the handler
destructures, plus the keys of any further fields. -/
structure OrderBody where
  userId : Option String := none
  client : Option String := none
  products : Option String := none
  status : Option String := none
  dateEntry : Option String := none
  dateProcessed : Option String := none
  others : List String := []
deriving Repr, DecidableEq

/-- `Object.keys(req.body).length === 0` for an order body. -/
def OrderBody.isEmptyObj (b : OrderBody) : Bool :=
  b.userId == none && b.client == none && b.products == none &&
    b.status == none && b.dateEntry == none && b.dateProcessed == none &&
    b.others == []

/-- The PATCH /orders/:orderId validation guard (src/routes/users.js line
630): empty body, or any destructured field present as the empty string. -/
def emptyOrderUpdate (b : OrderBody) : Bool :=
  b.isEmptyObj || b.userId == some "" || b.client == some "" ||
    b.dateEntry == some "" || b.products == some "" || b.status == some "" ||
    b.dateProcessed == some ""

/-- The status guard of the PATCH /orders/:orderId handler (src/routes/users.js
line 648): `status !== 'delivered' && status !== 'pending' && status !==
'canceled' && status !== 'delivering' && status !== 'preparing'` rejects; an
absent status differs from all five literals, hence is rejected too. -/
def statusRecognized : Option String → Bool
  | some v =>
    v == "delivered" || v == "pending" || v == "canceled" ||
      v == "delivering" || v == "preparing"
  | none => false

/-- The status enumeration named by the claim: pending, canceled, delivering,
delivered, preparing. -/
def statusSet : List String :=
  ["pending", "canceled", "delivering", "delivered", "preparing"]

/-- Outcome of the order PATCH handler: one constructor per response site. -/
inductive OOut where
  | ok (o : Order)
  | emptyValues
  | notAuthorized
  | badStatus
  | notFound
deriving Repr, DecidableEq

/-- HTTP status code of each order outcome. -/
def OOut.status : OOut → Nat
  | .ok _ => 200
  | .emptyValues => 400
  | .notAuthorized => 403
  | .badStatus => 400
  | .notFound => 404

/-- Result of the order PATCH handler. -/
structure OResult where
  out : OOut
  store : OrderStore
  ops : List StoreOp
deriving Repr, DecidableEq

/-- `findOneAndUpdate({ _id }, { $set: body })` on the orders collection;
of the modelled fields only `status` can be overwritten by the body. -/
def findOneAndUpdateOrder (s : OrderStore) (oid : String) (b : OrderBody) :
    Option Order × OrderStore :=
  match s with
  | [] => (none, [])
  | o :: rest =>
    if o.id == oid then
      (some { o with status := b.status.getD o.status },
        { o with status := b.status.getD o.status } :: rest)
    else
      let r := findOneAndUpdateOrder rest oid b
      (r.1, o :: r.2)

/-- PATCH /orders/:orderId handler (src/routes/users.js lines 613-687). -/
def updateOrder (c : AuthClaims) (orderId : String) (b : OrderBody)
    (s : OrderStore) : OResult :=
  if emptyOrderUpdate b then
    ⟨.emptyValues, s, []⟩
  else
    let isAdmin := reqIsAdmin c
    if !isAdmin then
      ⟨.notAuthorized, s, []⟩
    else if isHex24 orderId then
      if !statusRecognized b.status then
        ⟨.badStatus, s, []⟩
      else
        match findOneAndUpdateOrder s orderId b with
        | (some o, s2) => ⟨.ok o, s2, [.updateOrderById orderId]⟩
        | (none, s2) => ⟨.notFound, s2, [.updateOrderById orderId]⟩
    else
      ⟨.notFound, s, []⟩

/-- An order body whose only key is `status`. -/
def orderBodyStatus (v : String) : OrderBody := { status := some v }

/-- The self-or-admin authorization condition: the target string equals the
caller's identifier or the caller's email, or the caller's role is admin. -/
def selfOrAdmin (c : AuthClaims) (uid : String) : Prop :=
  uid = c.userId ∨ uid = c.email ∨ c.role = "admin"

instance (c : AuthClaims) (uid : String) : Decidable (selfOrAdmin c uid) := by
  unfold selfOrAdmin
  infer_instance

/-- A 24-hex identifier used by concrete scenarios. -/
def hexId : String := "507f1f77bcf86cd799439011"

/-- A stored ordinary user whose `_id` is `hexId`. -/
def storedUser : User := ⟨hexId, "bob@x.com", "h", "user"⟩

/-- Claims of an administrator caller. -/
def adminClaims : AuthClaims := ⟨"aaaaaaaaaaaaaaaaaaaaaaaa", "admin@x.com", "admin"⟩

/-- Claims of an ordinary (non-admin) caller. -/
def selfClaims : AuthClaims := ⟨"u1", "a@x.com", "user"⟩

/-- The stored record of the ordinary caller. -/
def selfUser : User := ⟨"u1", "a@x.com", "h", "user"⟩

/-- A stored admin record used by the provisioning counterexample. -/
def dupAdmin : User := ⟨"x1", "admin@bq.com", "h", "admin"⟩

/-! ## Helper lemmas -/

theorem authGuard_eq_selfOrAdmin (c : AuthClaims) (uid : String) :
    (reqUserId c == uid || reqIsAdmin c || reqThisEmail c == uid) = true
      ↔ selfOrAdmin c uid := by
  simp only [reqUserId, reqIsAdmin, reqThisEmail, selfOrAdmin, Bool.or_eq_true,
    beq_iff_eq]
  constructor
  · rintro ((h | h) | h)
    · exact Or.inl h.symm
    · exact Or.inr (Or.inr h)
    · exact Or.inr (Or.inl h.symm)
  · rintro (h | h | h)
    · exact Or.inl (Or.inl h.symm)
    · exact Or.inr h.symm
    · exact Or.inl (Or.inr h)

theorem patchGuard_eq_selfOrAdmin (c : AuthClaims) (uid : String) :
    ((reqUserId c == uid || reqThisEmail c == uid) || reqIsAdmin c) = true
      ↔ selfOrAdmin c uid := by
  simp only [reqUserId, reqIsAdmin, reqThisEmail, selfOrAdmin, Bool.or_eq_true,
    beq_iff_eq]
  constructor
  · rintro ((h | h) | h)
    · exact Or.inl h.symm
    · exact Or.inr (Or.inl h.symm)
    · exact Or.inr (Or.inr h)
  · rintro (h | h | h)
    · exact Or.inl (Or.inl h.symm)
    · exact Or.inl (Or.inr h.symm)
    · exact Or.inr h

theorem getUser_denied (c : AuthClaims) (uid : String) (s : Store)
    (h : ¬ selfOrAdmin c uid) :
    getUser c uid s = ⟨.notAuthorized, s, []⟩ := by
  have hb : (reqUserId c == uid || reqIsAdmin c || reqThisEmail c == uid) = false :=
    Bool.eq_false_iff.mpr (fun hh => h ((authGuard_eq_selfOrAdmin c uid).1 hh))
  simp [getUser, hb]

theorem getUser_allowed (c : AuthClaims) (uid : String) (s : Store)
    (h : selfOrAdmin c uid) :
    (getUser c uid s).out ≠ .notAuthorized := by
  have hb := (authGuard_eq_selfOrAdmin c uid).2 h
  simp only [getUser, hb, Bool.not_true]
  repeat' split
  all_goals simp_all

theorem deleteUser_denied (c : AuthClaims) (uid : String) (s : Store)
    (h : ¬ selfOrAdmin c uid) :
    deleteUser c uid s = ⟨.notAuthorized, s, []⟩ := by
  have hb : (reqUserId c == uid || reqIsAdmin c || reqThisEmail c == uid) = false :=
    Bool.eq_false_iff.mpr (fun hh => h ((authGuard_eq_selfOrAdmin c uid).1 hh))
  simp [deleteUser, hb]

theorem deleteUser_allowed (c : AuthClaims) (uid : String) (s : Store)
    (h : selfOrAdmin c uid) :
    (deleteUser c uid s).out ≠ .notAuthorized := by
  have hb := (authGuard_eq_selfOrAdmin c uid).2 h
  simp only [deleteUser, hb, Bool.not_true]
  repeat' split
  all_goals simp_all

theorem updateUser_denied (c : AuthClaims) (uid : String) (b : Body) (s : Store)
    (hv : emptyUpdate b = false) (h : ¬ selfOrAdmin c uid) :
    updateUser c uid b s = ⟨.notAuthorized, s, []⟩ := by
  have hb : ((reqUserId c == uid || reqThisEmail c == uid) || reqIsAdmin c) = false :=
    Bool.eq_false_iff.mpr (fun hh => h ((patchGuard_eq_selfOrAdmin c uid).1 hh))
  simp [updateUser, hv, hb]

theorem updateUser_allowed (c : AuthClaims) (uid : String) (b : Body) (s : Store)
    (hv : emptyUpdate b = false) (h : selfOrAdmin c uid) :
    (updateUser c uid b s).out ≠ .notAuthorized := by
  have hb := (patchGuard_eq_selfOrAdmin c uid).2 h
  simp only [updateUser, hv, hb, Bool.not_true]
  repeat' split
  all_goals simp_all

/-! ## Claim theorems -/

/-- C2: target resolution is claimed to send a 24-hex target to a primary-key
lookup, so an admin reading an existing user by its 24-hex id should get the
record (200).  The source's GET handler instead guards the id branch with
`uid === Number` (string versus the Number constructor: always false), so no
id lookup is performed at all (`ops = []`) and the handler answers 404 for a
user that is in the store. -/
theorem getUser_byId_admin_notFound :
    getUser adminClaims hexId [storedUser] = ⟨.notFound, [storedUser], []⟩
      ∧ UOut.status .notFound = some 404
      ∧ findOneById [storedUser] hexId = some storedUser := by
  decide

/-- C3: given a target with no at-sign that is not a 24-hex id, update and
delete reach `new ObjectId(uid)` unguarded; the constructor throws and no
surrounding code catches the exception, so the operation does not complete
with a 404 — contradicting the spec's requirement that resolution failure
must not throw.  Evaluated here at target `"abc"` for an admin caller. -/
theorem updateDelete_invalidId_throws :
    (updateUser adminClaims "abc" { password := some "new" } []).out = .thrown
      ∧ (deleteUser adminClaims "abc" []).out = .thrown
      ∧ UOut.status .thrown = none := by
  decide

/-- C4: an update whose body is empty, or whose email or password field is the
empty string, is rejected with the 400 empty-values error for every caller,
before the authorization branch: the store is returned untouched and no
collection access is recorded. -/
theorem updateUser_emptyValues_rejected (c : AuthClaims) (uid : String)
    (b : Body) (s : Store)
    (h : b.email = some "" ∨ b.password = some "" ∨ b.isEmptyObj = true) :
    updateUser c uid b s = ⟨.emptyValues, s, []⟩
      ∧ UOut.status .emptyValues = some 400 := by
  refine ⟨?_, rfl⟩
  have hv : emptyUpdate b = true := by
    rcases h with h | h | h <;> simp [emptyUpdate, h]
  simp [updateUser, hv]

theorem updateUser_emptyValues_rejected_witness :
    (({} : Body).isEmptyObj = true)
      ∧ updateUser adminClaims "bob@x.com" {} [storedUser]
          = ⟨.emptyValues, [storedUser], []⟩ :=
  ⟨by decide,
    (updateUser_emptyValues_rejected adminClaims "bob@x.com" {} [storedUser]
      (Or.inr (Or.inr (by decide)))).1⟩

/-- C6: a user-create request with a missing or empty email, password or role
is answered with the 400 missing-fields outcome before any collection access:
the guard `!email || !password || !role` runs before the Mongo client is even
constructed, so the store is unchanged and no operation is recorded. -/
theorem createUser_missingFields_rejected (c : AuthClaims) (b : Body) (s : Store)
    (h : truthy b.email = false ∨ truthy b.password = false ∨ truthy b.role = false) :
    createUser c b s = ⟨.missingFields, s, []⟩
      ∧ UOut.status .missingFields = some 400 := by
  refine ⟨?_, rfl⟩
  have hv : (!truthy b.email || !truthy b.password || !truthy b.role) = true := by
    rcases h with h | h | h <;> simp [h]
  simp only [createUser, hv, if_true]

theorem createUser_missingFields_rejected_witness :
    (truthy ({ email := some "new@x.com", password := some "pw" } : Body).role = false)
      ∧ createUser adminClaims { email := some "new@x.com", password := some "pw" } []
          = ⟨.missingFields, [], []⟩ :=
  ⟨by decide,
    (createUser_missingFields_rejected adminClaims
      { email := some "new@x.com", password := some "pw" } []
      (Or.inr (Or.inr (by decide)))).1⟩

/-- C7: a create request by an admin with non-empty fields whose email is
already present answers the 403 conflict outcome; the only collection access
is the duplicate-check lookup, and the store is returned unchanged, so no
second record with that email is inserted. -/
theorem createUser_duplicateEmail_conflict (c : AuthClaims) (b : Body)
    (s : Store) (e : String) (u : User)
    (hadmin : c.role = "admin") (he : b.email = some e) (hne : e ≠ "")
    (hp : truthy b.password = true) (hr : truthy b.role = true)
    (hex : findOneByEmail s e = some u) :
    createUser c b s = ⟨.userExists, s, [.findUserByEmail e]⟩
      ∧ UOut.status .userExists = some 403 := by
  refine ⟨?_, rfl⟩
  have h1 : truthy (some e) = true := by
    show (e != "") = true
    simp [hne]
  simp [createUser, he, h1, hp, hr, reqIsAdmin, hadmin, hex]

theorem createUser_duplicateEmail_conflict_witness :
    (findOneByEmail [storedUser] "bob@x.com" = some storedUser)
      ∧ createUser adminClaims
          { email := some "bob@x.com", password := some "pw", role := some "user" }
          [storedUser]
          = ⟨.userExists, [storedUser], [.findUserByEmail "bob@x.com"]⟩ :=
  ⟨by decide,
    (createUser_duplicateEmail_conflict adminClaims
      { email := some "bob@x.com", password := some "pw", role := some "user" }
      [storedUser] "bob@x.com" storedUser (by decide) (by decide) (by decide)
      (by decide) (by decide) (by decide)).1⟩

/-- C1: for user read, update and delete, the authorization decision ALLOWs
exactly when the target equals the caller's identifier, equals the caller's
email (carried by the legacy `thisEmail` request field, which the missing
middleware fills from the claims email, so the three identity signals of the
spec collapse to these two comparisons), or the caller is admin; otherwise
the handler answers the 403 not-authorized outcome, leaves the store
untouched, and performs no collection access.  For update the decision is
evaluated once the body has passed the empty-values validation that the spec
places before it. -/
theorem userOps_allow_iff_selfOrAdmin (c : AuthClaims) (uid : String)
    (b : Body) (s : Store) :
    ((getUser c uid s).out = .notAuthorized ↔ ¬ selfOrAdmin c uid)
      ∧ (¬ selfOrAdmin c uid → getUser c uid s = ⟨.notAuthorized, s, []⟩)
      ∧ ((deleteUser c uid s).out = .notAuthorized ↔ ¬ selfOrAdmin c uid)
      ∧ (¬ selfOrAdmin c uid → deleteUser c uid s = ⟨.notAuthorized, s, []⟩)
      ∧ (emptyUpdate b = false →
          ((updateUser c uid b s).out = .notAuthorized ↔ ¬ selfOrAdmin c uid)
            ∧ (¬ selfOrAdmin c uid → updateUser c uid b s = ⟨.notAuthorized, s, []⟩))
      ∧ UOut.status .notAuthorized = some 403 := by
  refine ⟨⟨?_, ?_⟩, getUser_denied c uid s, ⟨?_, ?_⟩, deleteUser_denied c uid s,
    ?_, rfl⟩
  · intro hout hsoa
    exact getUser_allowed c uid s hsoa hout
  · intro hsoa
    rw [getUser_denied c uid s hsoa]
  · intro hout hsoa
    exact deleteUser_allowed c uid s hsoa hout
  · intro hsoa
    rw [deleteUser_denied c uid s hsoa]
  · intro hv
    refine ⟨⟨?_, ?_⟩, updateUser_denied c uid b s hv⟩
    · intro hout hsoa
      exact updateUser_allowed c uid b s hv hsoa hout
    · intro hsoa
      rw [updateUser_denied c uid b s hv hsoa]

theorem userOps_allow_iff_selfOrAdmin_witness :
    emptyUpdate { password := some "x" } = false
      ∧ ¬ selfOrAdmin selfClaims "other@x.com"
      ∧ getUser selfClaims "other@x.com" [selfUser]
          = ⟨.notAuthorized, [selfUser], []⟩ :=
  ⟨by decide, by decide,
    (userOps_allow_iff_selfOrAdmin selfClaims "other@x.com"
      { password := some "x" } [selfUser]).2.1 (by decide)⟩

/-- C5 counterexample: a non-admin self-update whose body contains the role
key with the empty string as value is NOT denied: the guard `role && role !==
req.isAdmin` is skipped because the empty string is falsy, so the handler
answers 200 and overwrites the caller's role with the empty string. -/
theorem updateUser_emptyRoleField_not_denied :
    updateUser selfClaims "a@x.com" { role := some "" } [selfUser]
      = ⟨.ok "u1" "a@x.com" "", [{ selfUser with role := "" }],
          [.updateUserByEmail "a@x.com"]⟩
      ∧ UOut.status (.ok "u1" "a@x.com" "") = some 200 := by
  decide

/-- C5 amended: a user-update by a non-admin caller whose body carries a role
field with a truthy (non-empty) value, and which passes the empty-values
validation, is answered with a 403 (the role-change denial when the caller is
otherwise authorized, the not-authorized denial when not) and neither touches
the store nor performs any collection access; a role field present with the
empty string as value escapes the guard and the update proceeds. -/
theorem updateUser_truthyRole_nonAdmin_denied (c : AuthClaims) (uid : String)
    (b : Body) (s : Store)
    (hadmin : c.role ≠ "admin") (hrole : truthy b.role = true)
    (hv : emptyUpdate b = false) :
    ((updateUser c uid b s).out = .roleDenied
        ∨ (updateUser c uid b s).out = .notAuthorized)
      ∧ ((updateUser c uid b s).out).status = some 403
      ∧ (updateUser c uid b s).store = s
      ∧ (updateUser c uid b s).ops = [] := by
  have hA : reqIsAdmin c = false := by simp [reqIsAdmin, hadmin]
  cases hu : (reqUserId c == uid || reqThisEmail c == uid) with
  | true =>
    have hr : updateUser c uid b s = ⟨.roleDenied, s, []⟩ := by
      simp [updateUser, hv, hu, hA, hrole]
    simp [hr, UOut.status]
  | false =>
    have hr : updateUser c uid b s = ⟨.notAuthorized, s, []⟩ := by
      simp [updateUser, hv, hu, hA]
    simp [hr, UOut.status]

theorem updateUser_truthyRole_nonAdmin_denied_witness :
    (selfClaims.role ≠ "admin"
        ∧ truthy ({ role := some "admin" } : Body).role = true
        ∧ emptyUpdate { role := some "admin" } = false)
      ∧ (((updateUser selfClaims "a@x.com" { role := some "admin" } [selfUser]).out
            = .roleDenied
          ∨ (updateUser selfClaims "a@x.com" { role := some "admin" } [selfUser]).out
            = .notAuthorized)
        ∧ ((updateUser selfClaims "a@x.com" { role := some "admin" } [selfUser]).out).status
            = some 403
        ∧ (updateUser selfClaims "a@x.com" { role := some "admin" } [selfUser]).store
            = [selfUser]
        ∧ (updateUser selfClaims "a@x.com" { role := some "admin" } [selfUser]).ops
            = []) :=
  ⟨⟨by decide, by decide, by decide⟩,
    updateUser_truthyRole_nonAdmin_denied selfClaims "a@x.com"
      { role := some "admin" } [selfUser] (by decide) (by decide) (by decide)⟩

theorem findOneByEmail_none_iff (s : Store) (e : String) :
    findOneByEmail s e = none ↔ countEmail s e = 0 := by
  simp [findOneByEmail, countEmail, List.find?_eq_none, List.length_eq_zero,
    List.filter_eq_nil_iff]

theorem countEmail_append (s t : Store) (e : String) :
    countEmail (s ++ t) e = countEmail s e + countEmail t e := by
  simp [countEmail, List.filter_append]

/-- C8 counterexample: from a starting store that already holds two records
with the configured admin email, running the provisioning twice leaves both
records in place — the result is not exactly one record with that email. -/
theorem initAdminUser_duplicates_persist :
    countEmail [dupAdmin, dupAdmin] "admin@bq.com" = 2
      ∧ countEmail (initAdminUser "admin@bq.com" "secret"
          (initAdminUser "admin@bq.com" "secret" [dupAdmin, dupAdmin]))
          "admin@bq.com" = 2 := by
  decide

/-- C8 amended: for every configured (non-empty) admin email and password and
every starting store holding at most one record with that email — the email
uniqueness the data model guarantees — running the provisioning twice yields
exactly one record with the admin email, and the second run is a no-op: it
neither inserts nor changes anything. -/
theorem initAdminUser_runs_twice (e p : String) (s : Store)
    (he : e ≠ "") (hp : p ≠ "") (hs : countEmail s e ≤ 1) :
    countEmail (initAdminUser e p (initAdminUser e p s)) e = 1
      ∧ initAdminUser e p (initAdminUser e p s) = initAdminUser e p s := by
  have hguard : (e == "" || p == "") = false := by simp [he, hp]
  cases hfind : findOneByEmail s e with
  | some u =>
    have h1 : initAdminUser e p s = s := by simp [initAdminUser, hguard, hfind]
    have hne0 : countEmail s e ≠ 0 := by
      intro h0
      have h2 := (findOneByEmail_none_iff s e).2 h0
      rw [hfind] at h2
      exact Option.noConfusion h2
    have hc1 : countEmail s e = 1 := by omega
    refine ⟨?_, by simp only [h1]⟩
    simp only [h1]
    exact hc1
  | none =>
    have hc0 : countEmail s e = 0 := (findOneByEmail_none_iff s e).1 hfind
    have h1 : initAdminUser e p s
        = s ++ [{ id := freshObjectId s, email := e,
                  password := bcryptHash p, role := "admin" }] := by
      simp [initAdminUser, hguard, hfind]
    have hca : countEmail (initAdminUser e p s) e = 1 := by
      rw [h1, countEmail_append, hc0]
      simp [countEmail]
    obtain ⟨u2, hu2⟩ : ∃ u2, findOneByEmail (initAdminUser e p s) e = some u2 := by
      cases hx : findOneByEmail (initAdminUser e p s) e with
      | none =>
        have h0 := (findOneByEmail_none_iff _ _).1 hx
        omega
      | some u2 => exact ⟨u2, rfl⟩
    have h2 : ∀ t : Store, findOneByEmail t e = some u2 → initAdminUser e p t = t := by
      intro t ht
      simp [initAdminUser, hguard, ht]
    refine ⟨?_, h2 _ hu2⟩
    rw [h2 _ hu2]
    exact hca

theorem initAdminUser_runs_twice_witness :
    (("a@bq.com" : String) ≠ "" ∧ ("pw" : String) ≠ ""
        ∧ countEmail [] "a@bq.com" ≤ 1)
      ∧ countEmail (initAdminUser "a@bq.com" "pw"
          (initAdminUser "a@bq.com" "pw" [])) "a@bq.com" = 1 :=
  ⟨⟨by decide, by decide, by decide⟩,
    (initAdminUser_runs_twice "a@bq.com" "pw" [] (by decide) (by decide)
      (by decide)).1⟩

/-- C9: for an admin caller, a valid 24-hex order id and a body holding only a
status field, the handler proceeds to the store update exactly when the value
belongs to the enumeration pending, canceled, delivering, delivered,
preparing; for any value outside it the answer is a 400 outcome, the store is
untouched and no collection access happens (the empty string is caught by the
empty-values guard, every other stranger by the status guard). -/
theorem updateOrder_status_enumeration (c : AuthClaims) (oid v : String)
    (s : OrderStore)
    (hadmin : c.role = "admin") (hid : isHex24 oid = true) :
    (v ∈ statusSet →
        (updateOrder c oid (orderBodyStatus v) s).ops = [.updateOrderById oid])
      ∧ (v ∉ statusSet →
          (updateOrder c oid (orderBodyStatus v) s).out.status = 400
            ∧ (updateOrder c oid (orderBodyStatus v) s).store = s
            ∧ (updateOrder c oid (orderBodyStatus v) s).ops = []) := by
  have hA : reqIsAdmin c = true := by simp [reqIsAdmin, hadmin]
  constructor
  · intro hv
    have hvne : v ≠ "" := by
      intro h
      rw [h] at hv
      simp [statusSet] at hv
    have hempty : emptyOrderUpdate (orderBodyStatus v) = false := by
      simp [emptyOrderUpdate, orderBodyStatus, OrderBody.isEmptyObj, hvne]
    have hsr : statusRecognized (some v) = true := by
      simp only [statusSet, List.mem_cons, List.not_mem_nil, or_false] at hv
      rcases hv with h | h | h | h | h <;> simp [statusRecognized, h]
    have hproj : (orderBodyStatus v).status = some v := rfl
    rcases hfu : findOneAndUpdateOrder s oid (orderBodyStatus v) with ⟨vo, s2⟩
    cases vo <;> simp [updateOrder, hempty, hA, hid, hproj, hsr, hfu]
  · intro hv
    by_cases hvz : v = ""
    · have hempty : emptyOrderUpdate (orderBodyStatus v) = true := by
        simp [emptyOrderUpdate, orderBodyStatus, hvz]
      simp [updateOrder, hempty, OOut.status]
    · have hempty : emptyOrderUpdate (orderBodyStatus v) = false := by
        simp [emptyOrderUpdate, orderBodyStatus, OrderBody.isEmptyObj, hvz]
      simp only [statusSet, List.mem_cons, List.not_mem_nil, or_false,
        not_or] at hv
      obtain ⟨h1, h2, h3, h4, h5⟩ := hv
      have hsr : statusRecognized (some v) = false := by
        simp [statusRecognized, h1, h2, h3, h4, h5]
      have hproj : (orderBodyStatus v).status = some v := rfl
      simp [updateOrder, hempty, hA, hid, hproj, hsr, OOut.status]

theorem updateOrder_status_enumeration_witness :
    (adminClaims.role = "admin" ∧ isHex24 "0123456789abcdef01234567" = true)
      ∧ (("preparing" ∈ statusSet →
            (updateOrder adminClaims "0123456789abcdef01234567"
              (orderBodyStatus "preparing") []).ops
              = [.updateOrderById "0123456789abcdef01234567"])
        ∧ ("preparing" ∉ statusSet →
            (updateOrder adminClaims "0123456789abcdef01234567"
              (orderBodyStatus "preparing") []).out.status = 400
              ∧ (updateOrder adminClaims "0123456789abcdef01234567"
                  (orderBodyStatus "preparing") []).store = []
              ∧ (updateOrder adminClaims "0123456789abcdef01234567"
                  (orderBodyStatus "preparing") []).ops = [])) :=
  ⟨⟨rfl, by decide⟩,
    updateOrder_status_enumeration adminClaims "0123456789abcdef01234567"
      "preparing" [] rfl (by decide)⟩

/-- C10: an order-update whose body is non-empty but has no status key is
answered with a 400 outcome even for an admin caller and a valid 24-hex order
id: either the empty-values guard fires, or the absent status fails every
comparison of the status guard; in both cases the store is untouched and no
collection access happens, so no order field can be modified without a
recognized status value. -/
theorem updateOrder_noStatus_rejected (c : AuthClaims) (oid : String)
    (b : OrderBody) (s : OrderStore)
    (hadmin : c.role = "admin") (hid : isHex24 oid = true)
    (hst : b.status = none) (_hne : b.isEmptyObj = false) :
    (updateOrder c oid b s).out.status = 400
      ∧ (updateOrder c oid b s).store = s
      ∧ (updateOrder c oid b s).ops = [] := by
  have hA : reqIsAdmin c = true := by simp [reqIsAdmin, hadmin]
  by_cases hv : emptyOrderUpdate b = true
  · simp [updateOrder, hv, OOut.status]
  · have hv2 : emptyOrderUpdate b = false := Bool.eq_false_iff.mpr hv
    have hsr : statusRecognized b.status = false := by
      rw [hst]
      rfl
    simp [updateOrder, hv2, hA, hid, hsr, OOut.status]

theorem updateOrder_noStatus_rejected_witness :
    (adminClaims.role = "admin" ∧ isHex24 "0123456789abcdef01234567" = true
        ∧ ({ client := some "mesa 4" } : OrderBody).status = none
        ∧ ({ client := some "mesa 4" } : OrderBody).isEmptyObj = false)
      ∧ ((updateOrder adminClaims "0123456789abcdef01234567"
            { client := some "mesa 4" }
            [⟨"0123456789abcdef01234567", "pending"⟩]).out.status = 400
        ∧ (updateOrder adminClaims "0123456789abcdef01234567"
            { client := some "mesa 4" }
            [⟨"0123456789abcdef01234567", "pending"⟩]).store
            = [⟨"0123456789abcdef01234567", "pending"⟩]
        ∧ (updateOrder adminClaims "0123456789abcdef01234567"
            { client := some "mesa 4" }
            [⟨"0123456789abcdef01234567", "pending"⟩]).ops = []) :=
  ⟨⟨rfl, by decide, rfl, by decide⟩,
    updateOrder_noStatus_rejected adminClaims "0123456789abcdef01234567"
      { client := some "mesa 4" } [⟨"0123456789abcdef01234567", "pending"⟩]
      rfl (by decide) rfl (by decide)⟩
